import Mathlib

/-!
Verification development for the DocBoxRX triage core.

The repository snapshot contains the frontend sources
(`docboxrx-frontend/src/App.tsx`, `docboxrx-frontend/src/components/GridView.tsx`)
and the system documentation (`SYSTEM_SPECS.md`, `DOCBOXRX_SPECS.md`,
`ARCHITECTURE_ROADMAP.md`, white paper, technical guide).  The backend
(`docboxrx-backend/app/main.py`, `app/services/grid.py`) is not part of the
snapshot; the classifier, grid bucketing and escalation logic are therefore
modelled from the specification and the repository's own documentation of that
backend, while the frontend behaviours are embedded directly from the
TypeScript sources.
-/

/-- The four triage zones used throughout the system. -/
inductive Zone
  | STAT
  | TODAY
  | THIS_WEEK
  | LATER
deriving DecidableEq, Repr

/-- A normalized inbound message: sender address, subject and body. -/
structure Message where
  sender : String
  subject : String
  body : String
deriving DecidableEq, Repr

/-- Case-fold a string (the classifier normalizes text before keyword matching;
outer-whitespace stripping cannot affect substring containment of the trigger
keywords, none of which begins or ends with whitespace). -/
def lowerString (s : String) : String := ⟨s.data.map Char.toLower⟩

/-- Does the first character list start with the second one? -/
def listStartsWith : List Char → List Char → Bool
  | _, [] => true
  | [], _ :: _ => false
  | a :: as, b :: bs => a == b && listStartsWith as bs

/-- Does the first character list contain the second one as a contiguous run? -/
def listContainsSeq : List Char → List Char → Bool
  | [], needle => needle.isEmpty
  | l@(_ :: as), needle => listStartsWith l needle || listContainsSeq as needle

/-- Substring containment test on strings. -/
def strContains (haystack needle : String) : Bool :=
  listContainsSeq haystack.data needle.data

/-- Characters after the last `@` of the character list, if any. -/
def afterLastAt : List Char → Option (List Char)
  | [] => none
  | c :: rest =>
    match afterLastAt rest with
    | some d => some d
    | none => if c == '@' then some rest else none

/-- The sender domain of a message: the part of the sender address after the
last `@` (the whole sender when no `@` is present). -/
def senderDomain (m : Message) : String :=
  match afterLastAt m.sender.data with
  | some d => ⟨d⟩
  | none => m.sender

/-- One row of the deterministic trigger table: a keyword set and a domain set
mapped to a zone and a confidence. -/
structure TriggerRule where
  zone : Zone
  confidence : ℚ
  keywords : List String
  domains : List String
deriving DecidableEq, Repr

/-- Modelled from the spec: STAT trigger row of the jonE5 rules engine
(`docboxrx-backend/app/main.py`, absent from the snapshot), with the keyword
and domain lists documented in the repository's technical guide
("STAT triggers (0.90+ confidence)"). -/
def statRule : TriggerRule :=
  { zone := Zone.STAT
    confidence := mkRat 9 10
    keywords := ["stat", "urgent", "critical", "emergency", "abnormal", "positive"]
    domains := ["labcorp.com", "quest", "pathology"] }

/-- Modelled from the spec: TODAY trigger row (0.85 confidence) of the jonE5
rules engine, absent from the snapshot. -/
def todayRule : TriggerRule :=
  { zone := Zone.TODAY
    confidence := mkRat 85 100
    keywords := ["refill", "prior auth", "pharmacy", "prescription"]
    domains := ["pharmacy", "cvs", "walgreens"] }

/-- Modelled from the spec: THIS_WEEK trigger row (0.75 confidence) of the
jonE5 rules engine, absent from the snapshot. -/
def thisWeekRule : TriggerRule :=
  { zone := Zone.THIS_WEEK
    confidence := mkRat 75 100
    keywords := ["appointment", "schedule", "follow-up", "results"]
    domains := [] }

/-- Modelled from the spec: LATER trigger row (0.60 confidence) of the jonE5
rules engine, absent from the snapshot. -/
def laterRule : TriggerRule :=
  { zone := Zone.LATER
    confidence := mkRat 60 100
    keywords := ["newsletter", "marketing", "unsubscribe", "promo"]
    domains := [] }

/-- Modelled from the spec: the ordered trigger table, highest urgency first —
STAT, then TODAY, THIS_WEEK, LATER. -/
def triggerTable : List TriggerRule :=
  [statRule, todayRule, thisWeekRule, laterRule]

/-- A trigger row matches a message when one of its keywords occurs in the
case-folded subject or body, or one of its domains occurs in the case-folded
sender address. -/
def ruleMatches (r : TriggerRule) (m : Message) : Bool :=
  r.keywords.any (fun k =>
    strContains (lowerString m.subject) k || strContains (lowerString m.body) k)
  || r.domains.any (fun d => strContains (lowerString m.sender) d)

/-- Modelled from the spec: the first trigger row (in priority order) matching
the message, if any — the first match determines the provisional zone and
confidence. -/
def firstTrigger (m : Message) : Option TriggerRule :=
  triggerTable.find? (fun r => ruleMatches r m)

/-- A learned override: a sender-domain signal mapped to a target zone
(`rule_overrides` table: `key, zone`). -/
structure Override where
  signal : String
  zone : Zone
deriving DecidableEq, Repr

/-- Look up the override recorded for a signal, if any. -/
def overrideLookup (ov : List Override) (sig : String) : Option Zone :=
  (ov.find? (fun o => decide (o.signal = sig))).map (fun o => o.zone)

/-- Modelled from the spec: record a user correction as an override for a
signal.  A later correction for the same signal replaces the earlier one
(last-write-wins, the upsert semantics of the `rule_overrides` table); the
model keeps no timestamps because overrides never expire. -/
def recordOverride (ov : List Override) (sig : String) (z : Zone) : List Override :=
  ⟨sig, z⟩ :: ov.filter (fun o => !(decide (o.signal = sig)))

/-- Structured output of the external reasoning (LLM) fallback when it
succeeds; the fallback is modelled as `Option FallbackResult`, with `none`
standing for any failure (timeout, malformed response, provider error). -/
structure FallbackResult where
  zone : Zone
  confidence : ℚ
  reason : String
deriving DecidableEq, Repr

/-- The result of classification.  `usedLLM` records whether the external
reasoning fallback was consulted. -/
structure Classification where
  zone : Zone
  confidence : ℚ
  reason : String
  usedLLM : Bool
deriving DecidableEq, Repr

/-- The fixed confidence threshold below which the LLM fallback is consulted. -/
def confidenceThreshold : ℚ := mkRat 7 10

/-- Modelled from the spec: the fixed low confidence of the degraded default
classification used when the fallback fails (the spec fixes only that it is a
constant low value). -/
def fallbackFailureConfidence : ℚ := mkRat 3 10

/-- Modelled from the spec: the generic reason attached to the degraded
default classification. -/
def genericFailureReason : String :=
  "Unable to classify automatically; defaulting to LATER."

/-- Modelled from the spec: consult the external reasoning fallback.  On
success its structured output is used; on failure the classifier degrades to
the deterministic default zone LATER with a fixed low confidence and a generic
reason — it never raises. -/
def runFallback (fb : Option FallbackResult) : Classification :=
  match fb with
  | some res =>
    { zone := res.zone, confidence := res.confidence, reason := res.reason, usedLLM := true }
  | none =>
    { zone := Zone.LATER, confidence := fallbackFailureConfidence
      reason := genericFailureReason, usedLLM := true }

/-- Modelled from the spec: the jonE5 classifier
(`docboxrx-backend/app/main.py`, absent from the snapshot).  Learned overrides
take precedence over the trigger table for matching senders; otherwise the
ordered trigger table is evaluated first and the first match determines the
provisional zone and confidence; the LLM fallback is consulted only when no
trigger matches or the matched confidence is below the fixed threshold 0.70.
The function is total: it always returns a `Classification` and never raises. -/
def classify (ov : List Override) (fb : Option FallbackResult) (m : Message) :
    Classification :=
  match overrideLookup ov (senderDomain m) with
  | some z =>
    { zone := z, confidence := 1, reason := "Learned from your correction", usedLLM := false }
  | none =>
    match firstTrigger m with
    | some r =>
      if r.confidence < confidenceThreshold then runFallback fb
      else { zone := r.zone, confidence := r.confidence
             reason := "Matched trigger rule", usedLLM := false }
    | none => runFallback fb

example : confidenceThreshold ≤ statRule.confidence := by decide

example :
    ruleMatches statRule ⟨"lab@labcorp.com", "URGENT: abnormal result", "see newsletter"⟩
      = true := by decide

example :
    firstTrigger ⟨"news@medscape.com", "Weekly digest", "hello"⟩ = none := by decide

example : senderDomain ⟨"news@medscape.com", "", ""⟩ = "medscape.com" := by decide

/-- Lifecycle states used by the state-vector store (`new → NEEDS_REPLY`,
`triaged/pending_action → WAITING`, `resolved → RESOLVED`, plus the
escalated/overdue state `OVERDUE`). -/
inductive Lifecycle
  | NEEDS_REPLY
  | WAITING
  | OVERDUE
  | RESOLVED
deriving DecidableEq, Repr

/-- A row of `message_state_vectors` (the fields escalation touches). -/
structure StateVector where
  id : String
  lifecycle_state : Lifecycle
  current_owner_role : String
deriving DecidableEq, Repr

/-- Audit event types recorded in `message_events`. -/
inductive EventType
  | ESCALATED
deriving DecidableEq, Repr

/-- A row of the immutable `message_events` audit log. -/
structure MessageEvent where
  vector_id : String
  event_type : EventType
  description : String
deriving DecidableEq, Repr

/-- The persistent store escalation operates on: the state vectors and the
append-only audit log. -/
structure Store where
  vectors : List StateVector
  events : List MessageEvent
deriving DecidableEq, Repr

/-- Errors escalation can fail with. -/
inductive EscalateError
  | NotFound
  | InvalidState
deriving DecidableEq, Repr

/-- The fixed role escalation hands a message to. -/
def escalationRole : String := "lead_doctor"

/-- Point lookup of a state vector by id. -/
def getVector (s : Store) (id : String) : Option StateVector :=
  s.vectors.find? (fun v => decide (v.id = id))

/-- The per-record mutation escalation performs: lifecycle to `OVERDUE` and
owner to the fixed escalation role. -/
def escalateVec (v : StateVector) : StateVector :=
  { v with lifecycle_state := Lifecycle.OVERDUE, current_owner_role := escalationRole }

/-- The audit event appended by a successful escalation of message `id`. -/
def escalatedEvent (id : String) : MessageEvent :=
  ⟨id, EventType.ESCALATED, "Escalated to lead doctor"⟩

/-- Modelled from the spec: `POST /api/messages/{id}/escalate`
(`docboxrx-backend/app/main.py`, absent from the snapshot).  On an existing,
not-yet-resolved message it sets `lifecycle_state = OVERDUE`, sets
`current_owner_role = lead_doctor` and appends one `ESCALATED` event, all in a
single returned store, so the state mutation and the audit append succeed or
fail together; on a nonexistent message it fails with `NotFound`, and on an
already-resolved message with `InvalidState`, returning no new store. -/
def escalate (s : Store) (id : String) : Except EscalateError Store :=
  match getVector s id with
  | none => Except.error EscalateError.NotFound
  | some v =>
    if v.lifecycle_state = Lifecycle.RESOLVED then Except.error EscalateError.InvalidState
    else Except.ok
      { vectors := s.vectors.map (fun w => if w.id = id then escalateVec w else w)
        events := s.events ++ [escalatedEvent id] }

/-- The store observed after an escalation attempt: the new store on success,
the untouched original store on failure (no partial mutation). -/
def applyEscalate (s : Store) (id : String) : Store × Option EscalateError :=
  match escalate s id with
  | Except.ok s2 => (s2, none)
  | Except.error e => (s, some e)

/-- The `ESCALATED` audit events recorded for message `id`. -/
def escalatedEventsFor (s : Store) (id : String) : List MessageEvent :=
  s.events.filter (fun e =>
    decide (e.vector_id = id) && decide (e.event_type = EventType.ESCALATED))

/-- `find?` over the escalation update of a vector list: the updated list
yields the updated version of whatever the original list yields. -/
theorem find_map_escalateVec (l : List StateVector) (id : String) :
    (l.map (fun w => if w.id = id then escalateVec w else w)).find?
        (fun v => decide (v.id = id))
      = (l.find? (fun v => decide (v.id = id))).map escalateVec := by
  induction l with
  | nil => rfl
  | cons a t ih =>
    by_cases h : a.id = id
    · simp [List.find?, h, escalateVec]
    · simp [List.find?, h, ih]

example :
    applyEscalate ⟨[⟨"m1", Lifecycle.WAITING, "triage_nurse"⟩], []⟩ "m1"
      = (⟨[⟨"m1", Lifecycle.OVERDUE, "lead_doctor"⟩], [escalatedEvent "m1"]⟩, none) := by
  decide

/-- A message in the triage grid, as the grid service sees it: its continuous
risk score, its deadline expressed in hours from the query time (negative when
already past), and the zone stored by the classifier — which the grid
deliberately ignores. -/
structure GridMessage where
  risk_score : ℚ
  hoursUntilDeadline : ℚ
  storedZone : Zone
deriving DecidableEq, Repr

/-- Modelled from the spec: `zone_for_message` of `app/services/grid.py`
(absent from the snapshot).  The display zone is re-derived from `risk_score`
and the deadline only, by the ordered rule: STAT when `risk_score ≥ 0.8`, else
TODAY when the deadline is at most 24 hours away, else THIS_WEEK when at most
72 hours away, else LATER. -/
def zone_for_message (m : GridMessage) : Zone :=
  if mkRat 8 10 ≤ m.risk_score then Zone.STAT
  else if m.hoursUntilDeadline ≤ 24 then Zone.TODAY
  else if m.hoursUntilDeadline ≤ 72 then Zone.THIS_WEEK
  else Zone.LATER

example : zone_for_message ⟨mkRat 1 2, 10, Zone.STAT⟩ = Zone.TODAY := by decide

/-- An item of a grid zone as delivered to the frontend (`GridItem` in
`GridView.tsx`). -/
structure GridItem where
  id : String
  subject : String
  snippet : Option String
  risk_score : ℚ
  lifecycle_state : String
  deadline_at : Option String
  patient_name : Option String
deriving DecidableEq, Repr

/-- JavaScript `Array.prototype.slice(start, stop)` on lists (for the
non-negative indices the frontend uses). -/
def jsSlice (start stop : Nat) (l : List α) : List α :=
  (l.drop start).take (stop - start)

/-- The preview computation of `GridView.tsx`:
`zone === 'STAT' ? items.slice(0, 3) : items.slice(0, 8)`. -/
def zonePreview (zone : Zone) (items : List GridItem) : List GridItem :=
  if zone = Zone.STAT then jsSlice 0 3 items else jsSlice 0 8 items

/-- One zone of the grid response (`GridZone` in `GridView.tsx`). -/
structure GridZoneData where
  zone : Zone
  total_count : Nat
  overdue_count : Nat
  items : List GridItem
deriving DecidableEq, Repr

/-- The fixed column order the Decision Deck renders:
`['STAT', 'TODAY', 'THIS_WEEK', 'LATER']` in `GridView.tsx`. -/
def zoneOrder : List Zone :=
  [Zone.STAT, Zone.TODAY, Zone.THIS_WEEK, Zone.LATER]

/-- What one rendered Decision Deck column shows: the zone label, the
total-count badge, the overdue badge (present only when rendered), the
preview items, and whether the `No items` placeholder is shown. -/
structure RenderedColumn where
  zone : Zone
  totalBadge : Nat
  overdueBadge : Option Nat
  preview : List GridItem
  showsNoItems : Bool
deriving DecidableEq, Repr

/-- Rendering of a single zone column in `GridView.tsx`: the zone's data is
looked up with `zones.find((z) => z.zone === zone)`; `items` defaults to `[]`,
the count badge shows `zoneData?.total_count || 0`, the overdue badge is
rendered only when `zone === 'STAT'` (showing `zoneData?.overdue_count || 0`),
and `No items` is shown when the preview is empty. -/
def renderZoneColumn (zones : List GridZoneData) (z : Zone) : RenderedColumn :=
  let zoneData := zones.find? (fun g => decide (g.zone = z))
  let items := (zoneData.map (fun g => g.items)).getD []
  let prev := zonePreview z items
  { zone := z
    totalBadge := (zoneData.map (fun g => g.total_count)).getD 0
    overdueBadge :=
      if z = Zone.STAT then some ((zoneData.map (fun g => g.overdue_count)).getD 0)
      else none
    preview := prev
    showsNoItems := prev.isEmpty }

/-- The Decision Deck of `GridView.tsx`: one column per zone of the fixed
order, whatever zones the response contains. -/
def renderGrid (zones : List GridZoneData) : List RenderedColumn :=
  zoneOrder.map (renderZoneColumn zones)

/-- The frontend session state `apiCall` can clear: the React `token`, `user`
and `zoneData` states and the two localStorage keys `docboxrx_token` and
`docboxrx_user`. -/
structure SessionState where
  token : Option String
  user : Option String
  zoneData : Option String
  storedToken : Option String
  storedUser : Option String
deriving DecidableEq, Repr

/-- An HTTP response as `apiCall` sees it: the status code, the parsed error
detail (already defaulted to `Request failed` when the body is not JSON), and
the JSON payload of a successful response. -/
structure HttpResponse where
  status : Nat
  detail : String
  body : String
deriving DecidableEq, Repr

/-- `Response.ok` of the fetch API: status in the range 200–299. -/
def responseOk (r : HttpResponse) : Bool :=
  decide (200 ≤ r.status) && decide (r.status < 300)

/-- What an `apiCall` invocation yields to its caller: the parsed JSON body,
`null` (the cleared-session path), or a thrown `Error` with a message. -/
inductive ApiOutcome
  | success (json : String)
  | nullResult
  | thrown (message : String)
deriving DecidableEq, Repr

/-- The abort deadline `apiCall` arms: `setTimeout(() => controller.abort(), 30000)`. -/
def apiTimeoutMs : Nat := 30000

/-- The session after the 401 path of `apiCall`: both localStorage keys
removed, `token`, `user` and `zoneData` all set to `null`. -/
def clearedSession : SessionState := ⟨none, none, none, none, none⟩

/-- The `apiCall` helper of `App.tsx`.  `elapsedMs` is when the fetch would
settle: at `30000` ms the abort controller fires first, the fetch rejects with
an `AbortError`, and `apiCall` throws `Request timed out. Please try again.`.
Otherwise a non-ok response with status 401 while a token is held clears the
whole session and returns `null`; any other non-ok response throws the error
detail; an ok response returns its JSON body.  The session state is returned
alongside the outcome. -/
def apiCall (st : SessionState) (elapsedMs : Nat) (resp : HttpResponse) :
    SessionState × ApiOutcome :=
  if apiTimeoutMs ≤ elapsedMs then
    (st, ApiOutcome.thrown "Request timed out. Please try again.")
  else if responseOk resp then
    (st, ApiOutcome.success resp.body)
  else if resp.status = 401 ∧ st.token.isSome then
    (clearedSession, ApiOutcome.nullResult)
  else
    (st, ApiOutcome.thrown resp.detail)

example :
    apiCall ⟨some "t", some "u", some "z", some "t", some "u"⟩ 100 ⟨401, "Unauthorized", ""⟩
      = (clearedSession, ApiOutcome.nullResult) := by decide

/-- A message as the inbox detail pane of `App.tsx` renders it (the fields the
derived-field fallbacks read). -/
structure InboxMessage where
  subject : String
  zone : Zone
  reason : String
  summary : Option String
  recommended_action : Option String
  action_type : Option String
  draft_reply : Option String
deriving DecidableEq, Repr

/-- JavaScript `a || b` for an optional string `a`: `b` when `a` is absent or
empty (falsy), `a` otherwise. -/
def jsOrString (v : Option String) (dflt : String) : String :=
  match v with
  | some s => if s = "" then dflt else s
  | none => dflt

/-- The generic draft-reply template of `App.tsx`, parameterized by the user's
name and the message subject — the same template whatever the zone. -/
def defaultDraftReply (userName subject : String) : String :=
  "Thank you for your email regarding \"" ++ subject ++
  "\".\n\nI have reviewed the information and will respond accordingly.\n\nBest regards,\n" ++
  userName

/-- The draft reply shown (and sent) by `App.tsx`:
`selectedMessage.draft_reply || defaultDraftReply`. -/
def displayedDraftReply (userName : String) (m : InboxMessage) : String :=
  jsOrString m.draft_reply (defaultDraftReply userName m.subject)

/-- The fixed sentence the summary falls back to in `App.tsx`. -/
def defaultSummary : String :=
  "jonE5 analyzed this email and classified it based on sender patterns and content keywords."

/-- The summary shown by `App.tsx`:
`selectedMessage.summary || selectedMessage.reason || defaultSummary`. -/
def displayedSummary (m : InboxMessage) : String :=
  jsOrString m.summary (jsOrString (some m.reason) defaultSummary)

/-- The fixed sentence the recommended action falls back to in `App.tsx`. -/
def defaultRecommendedAction : String := "Review and respond as needed"

/-- The recommended action shown by `App.tsx`:
`selectedMessage.recommended_action || defaultRecommendedAction`. -/
def displayedRecommendedAction (m : InboxMessage) : String :=
  jsOrString m.recommended_action defaultRecommendedAction

/-- The action-type badge of `App.tsx`: rendered only when
`selectedMessage.action_type` is truthy — there is no fallback template. -/
def displayedActionTypeBadge (m : InboxMessage) : Option String :=
  match m.action_type with
  | some s => if s = "" then none else some s
  | none => none

example :
    displayedDraftReply "Dr. Smith"
        ⟨"Refill", Zone.TODAY, "r", none, none, none, none⟩
      = defaultDraftReply "Dr. Smith" "Refill" := by decide

/-- Claim C1: every message matching a STAT trigger keyword or domain (in its
normalized subject, body or sender) is classified STAT with confidence at
least 0.90, whatever the fallback result and even when THIS_WEEK or LATER
trigger keywords also match, because the trigger table is evaluated in the
fixed priority order STAT, TODAY, THIS_WEEK, LATER and the first match wins.
(The message is assumed not to be subject to a learned override, which the
spec gives precedence over the trigger table.) -/
theorem classify_stat_priority (ov : List Override) (fb : Option FallbackResult)
    (m : Message)
    (hov : overrideLookup ov (senderDomain m) = none)
    (hstat : ruleMatches statRule m = true) :
    (classify ov fb m).zone = Zone.STAT ∧
    mkRat 9 10 ≤ (classify ov fb m).confidence := by
  have hft : firstTrigger m = some statRule := by
    simp [firstTrigger, triggerTable, List.find?, hstat]
  have hlt : ¬ (statRule.confidence < confidenceThreshold) := by decide
  simp only [classify, hov, hft]
  rw [if_neg hlt]
  exact ⟨rfl, by decide⟩

/-- A concrete STAT-matching message that also matches LATER trigger keywords. -/
def c1Msg : Message :=
  ⟨"lab@labcorp.com", "URGENT: abnormal result",
    "Please also see our newsletter and unsubscribe anytime"⟩

/-- Witness for C1 at a concrete message that matches both the STAT and the
LATER trigger rows. -/
theorem classify_stat_priority_witness :
    ruleMatches laterRule c1Msg = true ∧
    (classify [] none c1Msg).zone = Zone.STAT ∧
    mkRat 9 10 ≤ (classify [] none c1Msg).confidence :=
  ⟨by decide, classify_stat_priority [] none c1Msg (by decide) (by decide)⟩

/-- Claim C2: when no trigger matches and the external reasoning fallback
fails (modelled by `none`, covering timeout, malformed response and provider
error alike), `classify` still returns a value — it is a total function and
cannot raise — namely zone LATER with the fixed low confidence and the
generic reason.  (No learned override is assumed for the sender.) -/
theorem classify_fallback_failure (ov : List Override) (m : Message)
    (hov : overrideLookup ov (senderDomain m) = none)
    (hnone : firstTrigger m = none) :
    classify ov none m =
      { zone := Zone.LATER, confidence := fallbackFailureConfidence
        reason := genericFailureReason, usedLLM := true } := by
  simp [classify, hov, hnone, runFallback]

/-- A concrete message matching no trigger row. -/
def c2Msg : Message :=
  ⟨"editor@mednews.org", "Weekly CME digest", "Courses selected for you"⟩

/-- Witness for C2 at a concrete trigger-free message with failed fallback. -/
theorem classify_fallback_failure_witness :
    classify [] none c2Msg =
      { zone := Zone.LATER, confidence := fallbackFailureConfidence
        reason := genericFailureReason, usedLLM := true } :=
  classify_fallback_failure [] c2Msg (by decide) (by decide)

/-- Claim C4: the LLM fallback is consulted only when no learned override
applies and either no trigger matches or the matched trigger's confidence is
below the fixed threshold 0.70; conversely, when a trigger matches with
confidence at least 0.70 the LLM is not consulted and the trigger's zone and
confidence are returned. -/
theorem classify_llm_gating (ov : List Override) (fb : Option FallbackResult)
    (m : Message) :
    ((classify ov fb m).usedLLM = true →
      overrideLookup ov (senderDomain m) = none ∧
      (firstTrigger m = none ∨
        ∃ r, firstTrigger m = some r ∧ r.confidence < confidenceThreshold)) ∧
    (∀ r, overrideLookup ov (senderDomain m) = none → firstTrigger m = some r →
      confidenceThreshold ≤ r.confidence →
      (classify ov fb m).usedLLM = false ∧ (classify ov fb m).zone = r.zone ∧
        (classify ov fb m).confidence = r.confidence) := by
  constructor
  · intro hllm
    cases hov : overrideLookup ov (senderDomain m) with
    | some z => simp [classify, hov] at hllm
    | none =>
      refine ⟨rfl, ?_⟩
      cases hft : firstTrigger m with
      | none => exact Or.inl rfl
      | some r =>
        refine Or.inr ⟨r, rfl, ?_⟩
        by_contra hge
        push_neg at hge
        rw [classify] at hllm
        simp only [hov, hft] at hllm
        rw [if_neg (not_lt.mpr hge)] at hllm
        exact Bool.false_ne_true hllm
  · intro r hov hft hge
    have hlt : ¬ (r.confidence < confidenceThreshold) := not_lt.mpr hge
    simp only [classify, hov, hft]
    rw [if_neg hlt]
    exact ⟨rfl, rfl, rfl⟩

/-- A concrete message matching the TODAY trigger row (confidence 0.85). -/
def c4Msg : Message :=
  ⟨"rx@cvs.com", "Refill needed", "please refill lisinopril for patient"⟩

/-- Witness for C4: a trigger match with confidence 0.85 ≥ 0.70 does not
consult the LLM and returns the trigger's zone and confidence. -/
theorem classify_llm_gating_witness :
    (classify [] none c4Msg).usedLLM = false ∧
    (classify [] none c4Msg).zone = todayRule.zone ∧
    (classify [] none c4Msg).confidence = todayRule.confidence :=
  (classify_llm_gating [] none c4Msg).2 todayRule (by decide) (by decide) (by decide)

/-- Claim C5: after a correction records an override for sender domain `d`
with target zone `Z`, any classification of a message from domain `d` that
matches no trigger returns `Z` (whatever the fallback would say), and a later
correction for the same signal replaces the earlier one (last-write-wins).
The override model keeps no timestamps: overrides never expire. -/
theorem classify_override_precedence (ov : List Override) (d : String) (Z : Zone)
    (fb : Option FallbackResult) (m : Message)
    (hdom : senderDomain m = d) (hnone : firstTrigger m = none) :
    (classify (recordOverride ov d Z) fb m).zone = Z ∧
    (∀ Zprev, overrideLookup (recordOverride (recordOverride ov d Zprev) d Z) d
        = some Z) := by
  have hlook : ∀ ov2 : List Override, overrideLookup (recordOverride ov2 d Z) d = some Z := by
    intro ov2
    simp [overrideLookup, recordOverride, List.find?]
  constructor
  · rw [classify, hdom, hlook ov]
  · intro Zprev
    exact hlook _

/-- A concrete trigger-free message from the domain being overridden. -/
def c5Msg : Message :=
  ⟨"news@medscape.com", "Weekly CME digest", "Courses selected for you"⟩

/-- Witness for C5: a correction for `medscape.com` to TODAY makes the next
trigger-free classification from that domain return TODAY, and a second
correction for the same signal overwrites the first. -/
theorem classify_override_precedence_witness :
    (classify (recordOverride [] "medscape.com" Zone.TODAY) none c5Msg).zone
       = Zone.TODAY ∧
    overrideLookup
        (recordOverride (recordOverride [] "medscape.com" Zone.STAT)
          "medscape.com" Zone.TODAY) "medscape.com"
      = some Zone.TODAY := by
  have h := classify_override_precedence [] "medscape.com" Zone.TODAY none c5Msg
    (by decide) (by decide)
  exact ⟨h.1, h.2 Zone.STAT⟩

/-- Claim C3: escalating an existing, not-yet-resolved message succeeds,
setting its lifecycle state to OVERDUE and its owner to the fixed escalation
role and appending exactly one ESCALATED audit event — state mutation and
audit append are carried by the one returned store, so they succeed or fail
together; escalating a nonexistent message fails with NotFound and an
already-resolved one with InvalidState, in both cases leaving the store (and
so the message and the audit log) unchanged. -/
theorem escalate_audit_and_errors (s : Store) (id : String) :
    (∀ v, getVector s id = some v → v.lifecycle_state ≠ Lifecycle.RESOLVED →
      ∃ s2, escalate s id = Except.ok s2 ∧
        getVector s2 id = some (escalateVec v) ∧
        (escalateVec v).lifecycle_state = Lifecycle.OVERDUE ∧
        (escalateVec v).current_owner_role = escalationRole ∧
        s2.events = s.events ++ [escalatedEvent id] ∧
        (escalatedEventsFor s2 id).length = (escalatedEventsFor s id).length + 1) ∧
    (getVector s id = none →
      escalate s id = Except.error EscalateError.NotFound ∧
      applyEscalate s id = (s, some EscalateError.NotFound)) ∧
    (∀ v, getVector s id = some v → v.lifecycle_state = Lifecycle.RESOLVED →
      escalate s id = Except.error EscalateError.InvalidState ∧
      applyEscalate s id = (s, some EscalateError.InvalidState)) := by
  refine ⟨?_, ?_, ?_⟩
  · intro v hv hnr
    have hesc : escalate s id = Except.ok
        ⟨s.vectors.map (fun w => if w.id = id then escalateVec w else w),
          s.events ++ [escalatedEvent id]⟩ := by
      simp [escalate, hv, hnr]
    refine ⟨_, hesc, ?_, rfl, rfl, rfl, ?_⟩
    · show (s.vectors.map (fun w => if w.id = id then escalateVec w else w)).find?
          (fun v => decide (v.id = id)) = some (escalateVec v)
      rw [find_map_escalateVec]
      rw [show s.vectors.find? (fun v => decide (v.id = id)) = some v from hv]
      rfl
    · show ((s.events ++ [escalatedEvent id]).filter _).length = _
      rw [List.filter_append]
      simp [escalatedEvent, escalatedEventsFor]
  · intro h
    refine ⟨?_, ?_⟩ <;> simp [escalate, applyEscalate, h]
  · intro v hv hr
    refine ⟨?_, ?_⟩ <;> simp [escalate, applyEscalate, hv, hr]

/-- A concrete waiting state vector. -/
def c3Vec1 : StateVector := ⟨"m1", Lifecycle.WAITING, "triage_nurse"⟩

/-- A concrete already-resolved state vector. -/
def c3Vec2 : StateVector := ⟨"m2", Lifecycle.RESOLVED, "front_desk"⟩

/-- A concrete store with one waiting and one resolved message and an empty
audit log. -/
def c3Store : Store := ⟨[c3Vec1, c3Vec2], []⟩

/-- Witness for C3: escalating the waiting message succeeds with exactly one
new ESCALATED event; escalating an unknown id fails with NotFound and the
resolved message with InvalidState, both leaving the store unchanged. -/
theorem escalate_audit_and_errors_witness :
    (∃ s2, escalate c3Store "m1" = Except.ok s2 ∧
      getVector s2 "m1" = some (escalateVec c3Vec1) ∧
      (escalateVec c3Vec1).lifecycle_state = Lifecycle.OVERDUE ∧
      (escalateVec c3Vec1).current_owner_role = escalationRole ∧
      s2.events = c3Store.events ++ [escalatedEvent "m1"] ∧
      (escalatedEventsFor s2 "m1").length
        = (escalatedEventsFor c3Store "m1").length + 1) ∧
    (escalate c3Store "ghost" = Except.error EscalateError.NotFound ∧
      applyEscalate c3Store "ghost" = (c3Store, some EscalateError.NotFound)) ∧
    (escalate c3Store "m2" = Except.error EscalateError.InvalidState ∧
      applyEscalate c3Store "m2" = (c3Store, some EscalateError.InvalidState)) :=
  ⟨(escalate_audit_and_errors c3Store "m1").1 c3Vec1 (by decide) (by decide),
    (escalate_audit_and_errors c3Store "ghost").2.1 (by decide),
    (escalate_audit_and_errors c3Store "m2").2.2 c3Vec2 (by decide) (by decide)⟩

/-- Claim C6: the grid display zone is re-derived from `risk_score` and the
deadline only — two messages agreeing on those two fields get the same
display zone whatever their stored zones — by the ordered rule STAT when
`risk_score ≥ 0.8`, else TODAY when the deadline is at most 24 hours away,
else THIS_WEEK when at most 72 hours away, else LATER; in particular a
message with `risk_score = 0.5` and a deadline 10 hours away is bucketed
TODAY, not STAT. -/
theorem zone_for_message_spec (m m2 : GridMessage) :
    (m.risk_score = m2.risk_score → m.hoursUntilDeadline = m2.hoursUntilDeadline →
      zone_for_message m = zone_for_message m2) ∧
    (mkRat 8 10 ≤ m.risk_score → zone_for_message m = Zone.STAT) ∧
    (m.risk_score < mkRat 8 10 → m.hoursUntilDeadline ≤ 24 →
      zone_for_message m = Zone.TODAY) ∧
    (m.risk_score < mkRat 8 10 → 24 < m.hoursUntilDeadline →
      m.hoursUntilDeadline ≤ 72 → zone_for_message m = Zone.THIS_WEEK) ∧
    (m.risk_score < mkRat 8 10 → 72 < m.hoursUntilDeadline →
      zone_for_message m = Zone.LATER) ∧
    (m.risk_score = mkRat 1 2 → m.hoursUntilDeadline = 10 →
      zone_for_message m = Zone.TODAY) := by
  refine ⟨?_, ?_, ?_, ?_, ?_, ?_⟩
  · intro h1 h2
    simp [zone_for_message, h1, h2]
  · intro h
    rw [zone_for_message, if_pos h]
  · intro h1 h2
    rw [zone_for_message, if_neg (not_le.mpr h1), if_pos h2]
  · intro h1 h2 h3
    rw [zone_for_message, if_neg (not_le.mpr h1), if_neg (not_le.mpr h2), if_pos h3]
  · intro h1 h2
    rw [zone_for_message, if_neg (not_le.mpr h1), if_neg (not_le.mpr (by linarith)),
      if_neg (not_le.mpr h2)]
  · intro h1 h2
    rw [zone_for_message, h1, h2]
    decide

/-- Witness for C6: the stored zone is ignored (0.5 risk, 10 hours is TODAY
whether the stored zone says LATER or STAT) and a 0.9-risk message is STAT. -/
theorem zone_for_message_spec_witness :
    zone_for_message ⟨mkRat 1 2, 10, Zone.LATER⟩
        = zone_for_message ⟨mkRat 1 2, 10, Zone.STAT⟩ ∧
    zone_for_message ⟨mkRat 1 2, 10, Zone.LATER⟩ = Zone.TODAY ∧
    zone_for_message ⟨mkRat 9 10, 100, Zone.LATER⟩ = Zone.STAT :=
  ⟨(zone_for_message_spec ⟨mkRat 1 2, 10, Zone.LATER⟩ ⟨mkRat 1 2, 10, Zone.STAT⟩).1
      rfl rfl,
    (zone_for_message_spec ⟨mkRat 1 2, 10, Zone.LATER⟩ ⟨mkRat 1 2, 10, Zone.LATER⟩).2.2.2.2.2
      rfl rfl,
    (zone_for_message_spec ⟨mkRat 9 10, 100, Zone.LATER⟩ ⟨mkRat 9 10, 100, Zone.LATER⟩).2.1
      (by decide)⟩

/-- Claim C7: the Decision Deck preview is capped at 3 items for the STAT
zone and at 8 items for each of the other zones, taking the first items of
the zone's list in order (`List.take` is exactly that initial segment). -/
theorem zonePreview_caps (items : List GridItem) (z : Zone) :
    zonePreview Zone.STAT items = items.take 3 ∧
    (zonePreview Zone.STAT items).length ≤ 3 ∧
    (z ≠ Zone.STAT →
      zonePreview z items = items.take 8 ∧ (zonePreview z items).length ≤ 8) := by
  have h3 : zonePreview Zone.STAT items = items.take 3 := by
    simp [zonePreview, jsSlice]
  have h8 : z ≠ Zone.STAT → zonePreview z items = items.take 8 := by
    intro hz
    simp [zonePreview, hz, jsSlice]
  refine ⟨h3, ?_, fun hz => ⟨h8 hz, ?_⟩⟩
  · rw [h3, List.length_take]
    omega
  · rw [h8 hz, List.length_take]
    omega

/-- A concrete grid item. -/
def c7Item : GridItem :=
  ⟨"g1", "Abnormal CBC", none, mkRat 9 10, "NEEDS_REPLY", none, none⟩

/-- A concrete list of ten identical grid items. -/
def c7Items : List GridItem := List.replicate 10 c7Item

/-- Witness for C7 at a ten-item list and the TODAY zone. -/
theorem zonePreview_caps_witness :
    zonePreview Zone.STAT c7Items = c7Items.take 3 ∧
    (zonePreview Zone.STAT c7Items).length ≤ 3 ∧
    (zonePreview Zone.TODAY c7Items = c7Items.take 8 ∧
      (zonePreview Zone.TODAY c7Items).length ≤ 8) :=
  ⟨(zonePreview_caps c7Items Zone.TODAY).1,
    (zonePreview_caps c7Items Zone.TODAY).2.1,
    (zonePreview_caps c7Items Zone.TODAY).2.2 (by decide)⟩

/-- Claim C9: a request whose fetch would settle at the 30-second abort
deadline or later surfaces the error `Request timed out. Please try again.`;
a non-ok 401 response while a token is held clears the whole stored session —
`token`, `user`, `zoneData` and both localStorage keys — and returns `null`
instead of throwing. -/
theorem apiCall_timeout_and_401 (st : SessionState) (t : Nat) (r : HttpResponse) :
    (apiTimeoutMs ≤ t →
      apiCall st t r = (st, ApiOutcome.thrown "Request timed out. Please try again.")) ∧
    (t < apiTimeoutMs → r.status = 401 → st.token.isSome = true →
      apiCall st t r = (clearedSession, ApiOutcome.nullResult) ∧
      clearedSession.token = none ∧ clearedSession.user = none ∧
      clearedSession.zoneData = none ∧ clearedSession.storedToken = none ∧
      clearedSession.storedUser = none) := by
  constructor
  · intro h
    rw [apiCall, if_pos h]
  · intro ht h401 htok
    have hok : responseOk r = false := by
      simp only [responseOk, h401]
      rfl
    refine ⟨?_, rfl, rfl, rfl, rfl, rfl⟩
    rw [apiCall, if_neg (not_le.mpr ht)]
    rw [if_neg (by simp [hok])]
    rw [if_pos ⟨h401, htok⟩]

/-- A concrete logged-in session. -/
def c9Session : SessionState :=
  ⟨some "jwt", some "drsmith", some "zones", some "jwt", some "drsmith"⟩

/-- A concrete 401 response. -/
def c9Resp : HttpResponse := ⟨401, "Could not validate credentials", ""⟩

/-- Witness for C9: at 30000 ms the call times out with the fixed message; a
fast 401 clears the whole session and returns `null`. -/
theorem apiCall_timeout_and_401_witness :
    apiCall c9Session 30000 c9Resp
        = (c9Session, ApiOutcome.thrown "Request timed out. Please try again.") ∧
    (apiCall c9Session 1000 c9Resp = (clearedSession, ApiOutcome.nullResult) ∧
      clearedSession.token = none ∧ clearedSession.user = none ∧
      clearedSession.zoneData = none ∧ clearedSession.storedToken = none ∧
      clearedSession.storedUser = none) :=
  ⟨(apiCall_timeout_and_401 c9Session 30000 c9Resp).1 (by decide),
    (apiCall_timeout_and_401 c9Session 1000 c9Resp).2 (by decide) (by decide) (by decide)⟩

/-- Claim C10: the Decision Deck always renders exactly the four zone columns
in the fixed order STAT, TODAY, THIS_WEEK, LATER whatever zones the grid
response contains; a zone absent from the response renders with total count 0
and the `No items` placeholder; and the overdue badge is rendered exactly on
the STAT column. -/
theorem renderGrid_spec (zones : List GridZoneData) :
    (renderGrid zones).map (fun c => c.zone) = zoneOrder ∧
    (renderGrid zones).length = 4 ∧
    (∀ z, zones.find? (fun g => decide (g.zone = z)) = none →
      (renderZoneColumn zones z).totalBadge = 0 ∧
      (renderZoneColumn zones z).showsNoItems = true) ∧
    (∀ c ∈ renderGrid zones, c.overdueBadge.isSome = true ↔ c.zone = Zone.STAT) := by
  refine ⟨rfl, rfl, ?_, ?_⟩
  · intro z h
    constructor <;> simp [renderZoneColumn, h, zonePreview, jsSlice]
  · intro c hc
    simp only [renderGrid, zoneOrder, List.map_cons, List.map_nil, List.mem_cons,
      List.not_mem_nil, or_false] at hc
    rcases hc with h | h | h | h <;> subst h <;>
      simp [renderZoneColumn]

/-- A concrete grid response containing only a TODAY zone. -/
def c10Zones : List GridZoneData :=
  [⟨Zone.TODAY, 5, 1, [c7Item]⟩]

/-- Witness for C10 at a response missing the STAT zone entirely. -/
theorem renderGrid_spec_witness :
    (renderGrid c10Zones).map (fun c => c.zone) = zoneOrder ∧
    ((renderZoneColumn c10Zones Zone.STAT).totalBadge = 0 ∧
      (renderZoneColumn c10Zones Zone.STAT).showsNoItems = true) ∧
    ((renderZoneColumn c10Zones Zone.STAT).overdueBadge.isSome = true ↔
      (renderZoneColumn c10Zones Zone.STAT).zone = Zone.STAT) :=
  ⟨(renderGrid_spec c10Zones).1,
    (renderGrid_spec c10Zones).2.2.1 Zone.STAT (by decide),
    (renderGrid_spec c10Zones).2.2.2 (renderZoneColumn c10Zones Zone.STAT) (by decide)⟩

/-- A STAT message with no fallback-supplied fields and one subject. -/
def c8Msg1 : InboxMessage :=
  ⟨"Lab results ready", Zone.STAT, "rule matched", none, none, none, none⟩

/-- A STAT message with no fallback-supplied fields and another subject. -/
def c8Msg2 : InboxMessage :=
  ⟨"Critical potassium value", Zone.STAT, "rule matched", none, none, none, none⟩

/-- Counterexample to claim C8 as stated: two messages with the same zone and
no fallback-supplied draft get different composed draft replies (the template
is parameterized by the subject, not selected by the zone), and a message
without an action type gets no composed action type at all — the frontend
renders no badge rather than a zone-keyed template. -/
theorem draft_template_not_zone_keyed :
    c8Msg1.zone = c8Msg2.zone ∧
    c8Msg1.draft_reply = none ∧ c8Msg2.draft_reply = none ∧
    displayedDraftReply "Dr. Smith" c8Msg1 ≠ displayedDraftReply "Dr. Smith" c8Msg2 ∧
    c8Msg1.action_type = none ∧
    displayedActionTypeBadge c8Msg1 = none := by
  decide

/-- Claim C8 (amended): when the fallback does not supply them, the derived
fields are composed from fixed deterministic templates that do not depend on
the message's zone — the draft reply is one template parameterized by the
message's subject and the user's name (so any two messages with the same
subject and no supplied draft get the same draft, whatever their zones), the
summary falls back to the classification reason and then to a fixed sentence,
the recommended action falls back to a fixed sentence, and the action type
has no fallback at all: it is omitted when absent. -/
theorem derived_field_fallback_templates (u : String) (m m2 : InboxMessage) :
    (m.draft_reply = none → displayedDraftReply u m = defaultDraftReply u m.subject) ∧
    (m.draft_reply = none → m2.draft_reply = none → m.subject = m2.subject →
      displayedDraftReply u m = displayedDraftReply u m2) ∧
    (m.summary = none → m.reason = "" → displayedSummary m = defaultSummary) ∧
    (m.summary = none → m.reason ≠ "" → displayedSummary m = m.reason) ∧
    (m.recommended_action = none →
      displayedRecommendedAction m = defaultRecommendedAction) ∧
    (m.action_type = none → displayedActionTypeBadge m = none) := by
  refine ⟨?_, ?_, ?_, ?_, ?_, ?_⟩
  · intro h
    simp [displayedDraftReply, jsOrString, h]
  · intro h h2 hsub
    simp [displayedDraftReply, jsOrString, h, h2, hsub]
  · intro h hr
    simp [displayedSummary, jsOrString, h, hr]
  · intro h hr
    simp [displayedSummary, jsOrString, h, hr]
  · intro h
    simp [displayedRecommendedAction, jsOrString, h]
  · intro h
    simp [displayedActionTypeBadge, h]

/-- A TODAY message with a given subject and no fallback-supplied fields. -/
def c8AmMsg1 : InboxMessage :=
  ⟨"Refill request", Zone.TODAY, "pharmacy rule", none, none, none, none⟩

/-- A LATER message with the same subject and no fallback-supplied fields. -/
def c8AmMsg2 : InboxMessage :=
  ⟨"Refill request", Zone.LATER, "", none, none, none, none⟩

/-- Witness for the amended C8: the composed draft is the subject-keyed
template, equal across different zones for equal subjects; the summary falls
back to the reason; the recommended action and action type behave as stated. -/
theorem derived_field_fallback_templates_witness :
    displayedDraftReply "Dr. Smith" c8AmMsg1
        = defaultDraftReply "Dr. Smith" c8AmMsg1.subject ∧
    displayedDraftReply "Dr. Smith" c8AmMsg1
        = displayedDraftReply "Dr. Smith" c8AmMsg2 ∧
    displayedSummary c8AmMsg2 = defaultSummary ∧
    displayedSummary c8AmMsg1 = c8AmMsg1.reason ∧
    displayedRecommendedAction c8AmMsg1 = defaultRecommendedAction ∧
    displayedActionTypeBadge c8AmMsg1 = none :=
  ⟨(derived_field_fallback_templates "Dr. Smith" c8AmMsg1 c8AmMsg2).1 rfl,
    (derived_field_fallback_templates "Dr. Smith" c8AmMsg1 c8AmMsg2).2.1 rfl rfl rfl,
    (derived_field_fallback_templates "Dr. Smith" c8AmMsg2 c8AmMsg1).2.2.1 rfl rfl,
    (derived_field_fallback_templates "Dr. Smith" c8AmMsg1 c8AmMsg2).2.2.2.1 rfl
      (by decide),
    (derived_field_fallback_templates "Dr. Smith" c8AmMsg1 c8AmMsg2).2.2.2.2.1 rfl,
    (derived_field_fallback_templates "Dr. Smith" c8AmMsg1 c8AmMsg2).2.2.2.2.2 rfl⟩
